import Mathlib

/-!
Verification of the CRT (Candle Range Theory) trading decision engine of
`exness_crt_trader.py`: the power-of-three range/sweep/confirm detector,
the stop-loss clamp, reward:risk and lot sizing, the daily trade gate,
duplicate-entry suppression, order submission bookkeeping, and the
breakeven watch loop.  Prices are modelled as rationals; candle and
broker timestamps as naturals.
-/

namespace CRT

/-- An OHLC candle as produced by the market data gateway (one row of the
DataFrame built in `get_rates`); `time` is the bar's open time. -/
structure Candle where
  time : ℕ
  open_ : ℚ
  high : ℚ
  low : ℚ
  close : ℚ
deriving DecidableEq

/-- Trade direction, `'SELL'` or `'BUY'` in the script. -/
inductive Direction where
  | SELL
  | BUY
deriving DecidableEq

/-- Config constant `RISK_PER_TRADE = 0.01`. -/
def RISK_PER_TRADE : ℚ := 1 / 100

/-- Config constant `SYMBOL = 'XAUUSDm'`. -/
def SYMBOL : String := "XAUUSDm"

/-- MT5 constant `TRADE_RETCODE_DONE` (10009), the success retcode tested
after each `order_send`. -/
def TRADE_RETCODE_DONE : ℕ := 10009

/-- MT5 constant `TRADE_ACTION_SLTP` (6), the action of a stop/target
modification request. -/
def TRADE_ACTION_SLTP : ℕ := 6

/-- Broker symbol information consumed by `get_min_stop_level` and the lot
sizing code: `stops_level` (in points, possibly absent), `point`, and
`trade_contract_size`. -/
structure SymbolInfo where
  stops_level : Option ℚ
  point : ℚ
  trade_contract_size : ℚ
deriving DecidableEq

/-- Translation of `get_min_stop_level`: returns the broker minimum stop
distance in price units, falling back to 1.0 when the symbol info is
missing, the `stops_level` field is missing, or the reported level is not
positive; a zero `point` falls back to 0.01 (Python truthiness of the
float). -/
def get_min_stop_level (info : Option SymbolInfo) : ℚ :=
  match info with
  | none => 1
  | some i =>
    match i.stops_level with
    | none => 1
    | some lvl =>
      let point := if i.point ≠ 0 then i.point else 1 / 100
      let min_stop := lvl * point
      if 0 < min_stop then min_stop else 1

/-- Translation of `get_rates`: the gateway call yields either nothing or a
list of candles; the helper returns `none` when the result is missing or
holds fewer than `count` candles, otherwise the candles themselves. -/
def get_rates (rates : Option (List Candle)) (count : ℕ) : Option (List Candle) :=
  match rates with
  | none => none
  | some rs => if rs.length < count then none else some rs

/-- Translation of the power-of-three detector (main loop): with the three
fetched H1 candles `[range, sweep, confirm]`, a signal exists when the
sweep candle wicks beyond either range boundary and the confirm candle
closes strictly back inside the range; the direction is `SELL` exactly
when the range high was swept, else `BUY`. -/
def detectPowerOfThree (range_candle sweep_candle confirm_candle : Candle) : Option Direction :=
  if (range_candle.high < sweep_candle.high ∨ sweep_candle.low < range_candle.low) ∧
      (range_candle.low < confirm_candle.close ∧ confirm_candle.close < range_candle.high) then
    if range_candle.high < sweep_candle.high then some Direction.SELL else some Direction.BUY
  else
    none

/-- One power-of-three detection attempt of a polling cycle: the H1 fetch
guard (`get_rates` for 3 candles, skip the cycle on `none`) followed by the
detector on `iloc[0]`, `iloc[1]`, `iloc[2]`.  `none` is the
data-unavailable skip; `some d` means the detector ran with outcome `d`.
The final fallback is unreachable because `get_rates` guarantees at least
`count` candles. -/
def powerOfThreeStep (raw : Option (List Candle)) : Option (Option Direction) :=
  match get_rates raw 3 with
  | none => none
  | some rs =>
    match rs with
    | r :: s :: c :: _ => some (detectPowerOfThree r s c)
    | _ => some none

/-- Translation of the SELL-side stop-loss clamp (main loop):
`sl = min(raw_sl, price - min_stop) if raw_sl < price - min_stop else raw_sl + min_stop`. -/
def clampSL_SELL (raw_sl price min_stop : ℚ) : ℚ :=
  if raw_sl < price - min_stop then min raw_sl (price - min_stop) else raw_sl + min_stop

/-- Translation of the BUY-side stop-loss clamp (main loop):
`sl = max(raw_sl, price + min_stop) if raw_sl > price + min_stop else raw_sl - min_stop`. -/
def clampSL_BUY (raw_sl price min_stop : ℚ) : ℚ :=
  if price + min_stop < raw_sl then max raw_sl (price + min_stop) else raw_sl - min_stop

/-- Risk plan computed per entry signal: entry price, stop, the two
targets, and the two reward:risk ratios. -/
structure RiskPlan where
  entry : ℚ
  sl : ℚ
  tp1 : ℚ
  tp2 : ℚ
  rr1 : ℚ
  rr2 : ℚ
deriving DecidableEq

/-- Translation of the SELL branch of the risk computation (main loop).
In the script the clamp on the second line reads the variable `price`,
which is assigned only three lines later from the current tick; at that
point `price` still holds the value left by a previous cycle, and on the
first signal cycle it is unbound (Python raises `NameError`).  The
parameter `pricePrev` models that variable's prior value, `none` meaning
unbound, in which case the computation crashes (modelled as `none`). -/
def computeRiskSELL (pricePrev : Option ℚ) (entry_candle : Candle) (tick_bid : ℚ)
    (min_stop crt_high crt_low : ℚ) : Option RiskPlan :=
  let raw_sl := entry_candle.high + (entry_candle.high - entry_candle.close) * (1 / 10)
  match pricePrev with
  | none => none
  | some prev =>
    let sl := clampSL_SELL raw_sl prev min_stop
    let tp1 := (crt_high + crt_low) / 2
    let tp2 := crt_low
    let price := tick_bid
    let risk := |price - sl|
    let rr1 := if 0 < risk then |price - tp1| / risk else 0
    let rr2 := if 0 < risk then |price - tp2| / risk else 0
    some ⟨price, sl, tp1, tp2, rr1, rr2⟩

/-- Round-half-even of a rational to an integer, the tie-breaking rule of
Python's builtin `round`. -/
def roundHalfEven (x : ℚ) : ℤ :=
  if x - ⌊x⌋ < 1 / 2 then ⌊x⌋
  else if 1 / 2 < x - ⌊x⌋ then ⌊x⌋ + 1
  else if 2 ∣ ⌊x⌋ then ⌊x⌋ else ⌊x⌋ + 1

/-- Python's `round(x, 2)`: round half to even at two decimal places. -/
def round2 (x : ℚ) : ℚ := (roundHalfEven (x * 100) : ℚ) / 100

/-- Translation of the helper `calculate_lot_size` (which the main loop
never calls): risk amount over dollar risk times 100, rounded to two
decimals and floored at 0.01, with a 0.01 fallback at zero distance. -/
def calculate_lot_size (entry sl balance risk_pct : ℚ) : ℚ :=
  let risk_amount := balance * risk_pct
  let pip_risk := |entry - sl|
  if pip_risk = 0 then 1 / 100
  else max (1 / 100) (round2 (risk_amount / (pip_risk * 100)))

/-- Translation of the main loop's lot sizing:
`lot_size = max_risk / (risk * contract_size) if risk > 0 else 0.01`
followed by `lot_size = max(lot_size, 0.01)` — note: no rounding. -/
def lotSizeMain (balance risk contract_size : ℚ) : ℚ :=
  max (if 0 < risk then balance * RISK_PER_TRADE / (risk * contract_size) else 1 / 100)
    (1 / 100)

/-- Translation of `half_lot = round(lot_size / 2, 2)` (main loop). -/
def half_lot (lot_size : ℚ) : ℚ := round2 (lot_size / 2)

/-- Cross-cycle state of the daily trade gate: today's trade count and the
last seen broker day (`None` before the first cycle). -/
structure TradeGateState where
  trades_today : ℕ
  last_trade_day : Option ℕ
deriving DecidableEq

/-- Translation of the top of the polling loop: if the broker day changed,
reset the counter and record the new day; then proceed only when the
(possibly reset) counter is below 3. -/
def dailyGate (st : TradeGateState) (broker_day : ℕ) : TradeGateState × Bool :=
  let st' := if st.last_trade_day ≠ some broker_day
    then { trades_today := 0, last_trade_day := some broker_day }
    else st
  (st', decide (st'.trades_today < 3))

/-- Translation of the duplicate-suppression check:
`if last_trade_time and entry_candle.name <= last_trade_time: continue`.
Accept when no entry was ever accepted, or when the candle timestamp is
strictly newer than the recorded one. -/
def dupGate (last_trade_time : Option ℕ) (t : ℕ) : Bool :=
  match last_trade_time with
  | none => true
  | some s => decide (s < t)

/-- Update of `last_trade_time`: recorded on acceptance, untouched on a
rejected duplicate. -/
def dupUpdate (last_trade_time : Option ℕ) (t : ℕ) : Option ℕ :=
  if dupGate last_trade_time t then some t else last_trade_time

/-- Result record of one `order_send` call: the gateway retcode and the
ticket of the opened order. -/
structure OrderResult where
  retcode : ℕ
  order : ℕ
deriving DecidableEq

/-- One row appended to the Excel journal (fields irrelevant to the claims
are elided): ticket and status. -/
structure JournalRow where
  ticket : ℕ
  status : String
deriving DecidableEq

/-- Translation of the post-submission bookkeeping (main loop): for each
leg, on `TRADE_RETCODE_DONE` append an `OPEN` journal row, otherwise only
log the failure; then `trades_today += 1` unconditionally.  Returns the
new counter and journal. -/
def submissionStep (result1 result2 : OrderResult) (trades_today : ℕ)
    (journal : List JournalRow) : ℕ × List JournalRow :=
  let j1 := if result1.retcode = TRADE_RETCODE_DONE
    then journal ++ [⟨result1.order, "OPEN"⟩] else journal
  let j2 := if result2.retcode = TRADE_RETCODE_DONE
    then j1 ++ [⟨result2.order, "OPEN"⟩] else j1
  (trades_today + 1, j2)

/-- An MT5 `TRADE_ACTION_SLTP` request as built by `move_sl_to_breakeven`. -/
structure SLTPRequest where
  action : ℕ
  position : ℕ
  sl : ℚ
  tp : ℚ
  symbol : String
deriving DecidableEq

/-- Translation of `move_sl_to_breakeven`: the request sent to the gateway
sets the position's stop to the breakeven price and its take-profit to 0.0. -/
def move_sl_to_breakeven (ticket : ℕ) (breakeven_price : ℚ) : SLTPRequest :=
  ⟨TRADE_ACTION_SLTP, ticket, breakeven_price, 0, SYMBOL⟩

/-- Translation of the breakeven watch loop body: given the successive
results of polling `positions_get` on the TP1 ticket (`true` = position
still present), keep polling while the position exists; at its first
disappearance send exactly one breakeven modification for the TP2 ticket
and leave the loop.  An exhausted trace means the position never vanished
within it (the script would still be polling). -/
def breakevenWatch (trace : List Bool) (ticket2 : ℕ) (entry : ℚ) : List SLTPRequest :=
  match trace with
  | [] => []
  | present :: rest =>
    if present then breakevenWatch rest ticket2 entry
    else [move_sl_to_breakeven ticket2 entry]

/-- Translation of the dispatch after the two submissions: the watch loop
runs exactly when both retcodes are `TRADE_RETCODE_DONE`; otherwise the
cycle just sleeps and no modification request is ever sent. -/
def lifecycleAfterSubmit (result1 result2 : OrderResult) (trace : List Bool)
    (entry : ℚ) : List SLTPRequest :=
  if result1.retcode = TRADE_RETCODE_DONE ∧ result2.retcode = TRADE_RETCODE_DONE
  then breakevenWatch trace result2.order entry
  else []

/-- Concrete M5 entry candle used in counterexamples: open 1994, high 1996,
low 1990, close 1992; its raw SELL stop is 1996.4. -/
def exEntryCandle : Candle := ⟨0, 1994, 1996, 1990, 1992⟩

/-- C1: the stop-loss clamp does NOT guarantee a minimum distance from
entry.  With the fallback broker minimum of 1.0, a SELL entry at current
price 100 and a raw wick stop of 99.5 is clamped to 100.5, a distance of
only 0.5 from entry — strictly less than the minimum-stop distance.  The
branch taken whenever `price - min_stop <= raw_sl < price` always lands
within `min_stop` of the entry. -/
theorem clamp_below_min_stop_distance :
    get_min_stop_level none = 1 ∧
    clampSL_SELL (199 / 2) 100 (get_min_stop_level none) = 201 / 2 ∧
    |(100 : ℚ) - 201 / 2| < get_min_stop_level none := by
  refine ⟨rfl, ?_, ?_⟩
  · norm_num [clampSL_SELL, get_min_stop_level]
  · show |(100 : ℚ) - 201 / 2| < 1
    rw [abs_lt]
    constructor <;> norm_num

/-- C2: the SELL stop-loss computation reads the variable `price` before
the cycle assigns it.  On the first signal cycle the variable is unbound
and the computation crashes (`none`); on later cycles the clamp uses the
previous cycle's price: with the current tick bid fixed at 2005, changing
only the leftover `price` value (100 versus 2200) changes the final stop,
so the stop does not depend on the current-cycle tick alone. -/
theorem stop_loss_reads_unassigned_price :
    computeRiskSELL none exEntryCandle 2005 1 2000 1990 = none ∧
    (computeRiskSELL (some 100) exEntryCandle 2005 1 2000 1990).map RiskPlan.sl ≠
      (computeRiskSELL (some 2200) exEntryCandle 2005 1 2000 1990).map RiskPlan.sl := by
  refine ⟨rfl, ?_⟩
  have h1 : (computeRiskSELL (some 100) exEntryCandle 2005 1 2000 1990).map RiskPlan.sl =
      some (9987 / 5) := by
    norm_num [computeRiskSELL, clampSL_SELL, exEntryCandle]
  have h2 : (computeRiskSELL (some 2200) exEntryCandle 2005 1 2000 1990).map RiskPlan.sl =
      some (9982 / 5) := by
    norm_num [computeRiskSELL, clampSL_SELL, exEntryCandle, min_def]
  rw [h1, h2]
  norm_num

/-- C5: characterization of the power-of-three detector.  SELL exactly
when the sweep candle breaches a range boundary, the confirm candle closes
strictly inside the range, and the range high was swept; BUY exactly when
the sweep-and-confirm condition holds and the range high was not swept;
no signal otherwise.  A candle sweeping both boundaries resolves to SELL. -/
theorem detector_characterization (r s c : Candle) :
    (detectPowerOfThree r s c = some Direction.SELL ↔
      (r.high < s.high ∨ s.low < r.low) ∧ (r.low < c.close ∧ c.close < r.high) ∧
        r.high < s.high) ∧
    (detectPowerOfThree r s c = some Direction.BUY ↔
      (r.high < s.high ∨ s.low < r.low) ∧ (r.low < c.close ∧ c.close < r.high) ∧
        s.high ≤ r.high) ∧
    (detectPowerOfThree r s c = none ↔
      ¬((r.high < s.high ∨ s.low < r.low) ∧ (r.low < c.close ∧ c.close < r.high))) := by
  unfold detectPowerOfThree
  split_ifs with h1 h2 <;> simp_all [not_lt]

/-- C6: an under-length H1 window never yields a signal.  Whenever the
gateway reports fewer than 3 hourly candles — or none at all — the cycle
is a data-unavailable skip: the detector is never reached and no direction
is produced. -/
theorem short_window_no_signal (rs : List Candle) (h : rs.length < 3) :
    powerOfThreeStep (some rs) = none ∧ powerOfThreeStep none = none := by
  constructor
  · simp [powerOfThreeStep, get_rates, h]
  · rfl

/-- Witness for C6 at the empty candle list. -/
theorem short_window_no_signal_witness :
    ([] : List Candle).length < 3 ∧
      (powerOfThreeStep (some []) = none ∧ powerOfThreeStep none = none) :=
  ⟨by decide, short_window_no_signal [] (by decide)⟩

/-- C3 counterexample: when both order submissions fail (retcode 10013,
not `TRADE_RETCODE_DONE`), the daily trade counter is still incremented —
from 0 to 1 — while the journal stays empty, refuting the claim that a
failed submission leaves the counter unchanged. -/
theorem counter_incremented_on_failure :
    (submissionStep ⟨10013, 7⟩ ⟨10013, 8⟩ 0 []).1 = 1 ∧
    (submissionStep ⟨10013, 7⟩ ⟨10013, 8⟩ 0 []).2 = [] := by
  constructor <;> rfl

/-- C3 amended: after the two submissions of a cycle, the daily counter is
incremented exactly once regardless of the retcodes, and the journal gains
one `OPEN` row per leg whose retcode is `TRADE_RETCODE_DONE` and nothing
for a failed leg; the step always returns normally, so the loop continues. -/
theorem submission_step_amended (r1 r2 : OrderResult) (n : ℕ) (j : List JournalRow) :
    (submissionStep r1 r2 n j).1 = n + 1 ∧
    (submissionStep r1 r2 n j).2 =
      j ++ (if r1.retcode = TRADE_RETCODE_DONE then [⟨r1.order, "OPEN"⟩] else [])
        ++ (if r2.retcode = TRADE_RETCODE_DONE then [⟨r2.order, "OPEN"⟩] else []) := by
  unfold submissionStep
  split_ifs <;> simp

/-- Round-half-even of a rational differs from it by at most one half. -/
theorem roundHalfEven_err (x : ℚ) : |(roundHalfEven x : ℚ) - x| ≤ 1 / 2 := by
  have h0 : ((⌊x⌋ : ℚ)) ≤ x := Int.floor_le x
  have h1 : x < ⌊x⌋ + 1 := Int.lt_floor_add_one x
  unfold roundHalfEven
  split_ifs with hf hg he
  · rw [abs_sub_comm, abs_of_nonneg (by linarith)]
    linarith
  · push_cast
    rw [abs_of_nonneg (by linarith)]
    linarith
  · rw [abs_sub_comm, abs_of_nonneg (by linarith)]
    linarith
  · push_cast
    rw [abs_of_nonneg (by linarith)]
    linarith

/-- Rounding to two decimal places moves a rational by at most 1/200. -/
theorem round2_err (x : ℚ) : |round2 x - x| ≤ 1 / 200 := by
  have h := abs_le.mp (roundHalfEven_err (x * 100))
  rw [abs_le]
  unfold round2
  constructor <;> linarith [h.1, h.2]

/-- C4 counterexample: with balance 10000, stop distance 3 and contract
size 100, the main loop's lot size is exactly 1/3 — it is never rounded —
whereas the claimed formula `max(0.01, round(balance*risk/(dist*contract), 2))`
gives 0.33; the two differ. -/
theorem lot_size_not_rounded :
    lotSizeMain 10000 3 100 = 1 / 3 ∧
    max (1 / 100 : ℚ) (round2 (10000 * RISK_PER_TRADE / (3 * 100))) = 33 / 100 ∧
    lotSizeMain 10000 3 100 ≠
      max (1 / 100 : ℚ) (round2 (10000 * RISK_PER_TRADE / (3 * 100))) := by
  have hm : lotSizeMain 10000 3 100 = 1 / 3 := by
    norm_num [lotSizeMain, RISK_PER_TRADE]
  have hr : round2 (10000 * RISK_PER_TRADE / (3 * 100)) = 33 / 100 := by
    have hfl : ⌊(10000 * RISK_PER_TRADE / (3 * 100) * 100 : ℚ)⌋ = 33 := by
      rw [Int.floor_eq_iff]
      norm_num [RISK_PER_TRADE]
    norm_num [round2, roundHalfEven, hfl, RISK_PER_TRADE]
  refine ⟨hm, ?_, ?_⟩
  · rw [hr]; norm_num
  · rw [hm, hr]; norm_num

/-- C4 amended: the main loop's lot size is the unrounded quotient
`balance * RISK_PER_TRADE / (risk * contract_size)` floored at 0.01, so
whenever that quotient is at least 0.01 the sized position risks exactly
`balance * RISK_PER_TRADE` (no rounding step), the lot never falls below
0.01, and each leg receives `round(lot/2, 2)`, within 1/200 of half the
lot (with no explicit broker-minimum floor on the halves). -/
theorem lot_sizing_amended (balance risk contract_size : ℚ)
    (hr : 0 < risk) (hc : 0 < contract_size)
    (hge : 1 / 100 ≤ balance * RISK_PER_TRADE / (risk * contract_size)) :
    lotSizeMain balance risk contract_size * risk * contract_size =
      balance * RISK_PER_TRADE ∧
    1 / 100 ≤ lotSizeMain balance risk contract_size ∧
    |half_lot (lotSizeMain balance risk contract_size) -
      lotSizeMain balance risk contract_size / 2| ≤ 1 / 200 := by
  have hmain : lotSizeMain balance risk contract_size =
      balance * RISK_PER_TRADE / (risk * contract_size) := by
    unfold lotSizeMain
    rw [if_pos hr, max_eq_left hge]
  refine ⟨?_, ?_, ?_⟩
  · rw [hmain]
    field_simp
    ring
  · rw [hmain]; exact hge
  · simpa [half_lot] using round2_err (lotSizeMain balance risk contract_size / 2)

/-- Witness for C4 amended at balance 10000, stop distance 5, contract
size 100 (unclamped lot 1/5). -/
theorem lot_sizing_amended_witness :
    lotSizeMain 10000 5 100 * 5 * 100 = 10000 * RISK_PER_TRADE ∧
    1 / 100 ≤ lotSizeMain 10000 5 100 ∧
    |half_lot (lotSizeMain 10000 5 100) - lotSizeMain 10000 5 100 / 2| ≤ 1 / 200 :=
  lot_sizing_amended 10000 5 100 (by norm_num) (by norm_num)
    (by norm_num [RISK_PER_TRADE])

/-- C7: the daily trade cap.  When the broker day differs from the
recorded one, the counter is reset to 0 and the new day recorded; when the
day is unchanged and the counter has reached 3, the cycle is rejected
before any signal, pricing or reward:risk computation, so a 4th entry on
the same broker day is never submitted. -/
theorem daily_cap_and_reset (st : TradeGateState) (d : ℕ) :
    (st.last_trade_day ≠ some d →
      (dailyGate st d).1.trades_today = 0 ∧ (dailyGate st d).1.last_trade_day = some d) ∧
    (st.last_trade_day = some d → 3 ≤ st.trades_today → (dailyGate st d).2 = false) := by
  constructor
  · intro h
    simp [dailyGate, h]
  · intro h h3
    simp [dailyGate, h, Nat.not_lt.mpr h3]

/-- Witness for C7: a stale day (4 versus 5) resets the counter from 3 to
0, and a same-day counter of 3 rejects the cycle. -/
theorem daily_cap_and_reset_witness :
    (dailyGate ⟨3, some 4⟩ 5).1.trades_today = 0 ∧ (dailyGate ⟨3, some 5⟩ 5).2 = false :=
  ⟨((daily_cap_and_reset ⟨3, some 4⟩ 5).1 (by decide)).1,
    (daily_cap_and_reset ⟨3, some 5⟩ 5).2 (by decide) (by decide)⟩

/-- C8: duplicate suppression.  Against a recorded timestamp `s`, a signal
at time `t ≤ s` is rejected; acceptance holds exactly when `t` is strictly
newer; and after the gate has processed time `t` — whether it accepted or
rejected — running it again at the same time `t` rejects, which is the
idempotence of the gate on a repeated candle timestamp. -/
theorem duplicate_suppression (s t : ℕ) :
    (t ≤ s → dupGate (some s) t = false) ∧
    (dupGate (some s) t = true ↔ s < t) ∧
    dupGate (dupUpdate (some s) t) t = false ∧
    dupGate (dupUpdate none t) t = false := by
  refine ⟨?_, ?_, ?_, ?_⟩
  · intro h
    simp [dupGate, Nat.not_lt.mpr h]
  · simp [dupGate]
  · by_cases h : s < t <;> simp [dupGate, dupUpdate, h]
  · simp [dupGate, dupUpdate]

/-- Witness for C8 at equal timestamps 5 and 5. -/
theorem duplicate_suppression_witness :
    dupGate (some 5) 5 = false ∧ dupGate (dupUpdate (some 5) 5) 5 = false :=
  ⟨(duplicate_suppression 5 5).1 (by decide), (duplicate_suppression 5 5).2.2.1⟩

/-- Helper for C9: as soon as a poll reports the TP1 position gone, the
watch loop issues exactly the one breakeven request and stops. -/
theorem breakevenWatch_of_mem (trace : List Bool) (t2 : ℕ) (entry : ℚ)
    (h : false ∈ trace) :
    breakevenWatch trace t2 entry = [move_sl_to_breakeven t2 entry] := by
  induction trace with
  | nil => cases h
  | cons b rest ih =>
    cases b
    · simp [breakevenWatch]
    · have hr : false ∈ rest := by simpa using h
      simpa [breakevenWatch] using ih hr

/-- C9: the breakeven watch loop runs only when both legs were submitted
successfully (otherwise no modification request is ever sent), and once a
poll reports the TP1 position gone it issues exactly one stop-modification
on the TP2 ticket whose stop is exactly the original entry price, then
exits. -/
theorem breakeven_watch_behavior (r1 r2 : OrderResult) (trace : List Bool) (entry : ℚ) :
    (¬(r1.retcode = TRADE_RETCODE_DONE ∧ r2.retcode = TRADE_RETCODE_DONE) →
      lifecycleAfterSubmit r1 r2 trace entry = []) ∧
    (r1.retcode = TRADE_RETCODE_DONE ∧ r2.retcode = TRADE_RETCODE_DONE →
      false ∈ trace →
      lifecycleAfterSubmit r1 r2 trace entry = [move_sl_to_breakeven r2.order entry]) ∧
    (move_sl_to_breakeven r2.order entry).sl = entry := by
  refine ⟨?_, ?_, rfl⟩
  · intro h
    unfold lifecycleAfterSubmit
    rw [if_neg h]
  · intro h hm
    unfold lifecycleAfterSubmit
    rw [if_pos h]
    exact breakevenWatch_of_mem trace r2.order entry hm

/-- Witness for C9: both legs succeed (retcode 10009), the TP1 position is
present on the first poll and gone on the second, and the single request
sent is the breakeven modification of ticket 2 at entry 1994. -/
theorem breakeven_watch_behavior_witness :
    lifecycleAfterSubmit ⟨10009, 1⟩ ⟨10009, 2⟩ [true, false] 1994 =
      [move_sl_to_breakeven 2 1994] :=
  (breakeven_watch_behavior ⟨10009, 1⟩ ⟨10009, 2⟩ [true, false] 1994).2.1
    (by constructor <;> rfl) (by decide)

/-- C10: the breakeven promotion is not frame-preserving on the
take-profit.  The `TRADE_ACTION_SLTP` request built by
`move_sl_to_breakeven` sets the position's take-profit to 0.0, so for any
nonzero originally submitted target the TP2 leg's take-profit no longer
equals its original range-boundary value after promotion. -/
theorem breakeven_promotion_clears_tp (ticket : ℕ) (entry tp0 : ℚ) (h : tp0 ≠ 0) :
    (move_sl_to_breakeven ticket entry).tp = 0 ∧
    (move_sl_to_breakeven ticket entry).tp ≠ tp0 := by
  refine ⟨rfl, ?_⟩
  simp only [move_sl_to_breakeven]
  exact fun hc => h hc.symm

/-- Witness for C10 at ticket 2, entry 1994 and original target 1990. -/
theorem breakeven_promotion_clears_tp_witness :
    (1990 : ℚ) ≠ 0 ∧
      ((move_sl_to_breakeven 2 1994).tp = 0 ∧ (move_sl_to_breakeven 2 1994).tp ≠ 1990) :=
  ⟨by norm_num, breakeven_promotion_clears_tp 2 1994 1990 (by norm_num)⟩

end CRT
